import Mathlib

/-!
# Verification of the goodlink-backend redirect worker

Shallow embedding of `src/index.js` (a Cloudflare Worker that resolves
short-link slugs against a Supabase REST datastore and redirects).

JavaScript strings are modelled as Lean `String` (operated on through their
`List Char` data).  The WHATWG `URL` / `URLSearchParams` platform primitives
used by the worker are modelled explicitly below; the datastore interaction is
modelled by passing the outcome of the single outbound `fetch` as an explicit
argument.
-/

set_option autoImplicit false

namespace Goodlink

/-- ASCII letter test (used by the modelled URL parser for scheme chars). -/
def isAsciiLetter (c : Char) : Bool :=
  decide (('a' ≤ c ∧ c ≤ 'z') ∨ ('A' ≤ c ∧ c ≤ 'Z'))

/-- Characters allowed by the worker's slug pattern `/^[a-z0-9-]{3,30}$/i`
(case-insensitive: both cases of letters, digits, hyphen). -/
def isSlugChar (c : Char) : Bool :=
  decide (('a' ≤ c ∧ c ≤ 'z') ∨ ('A' ≤ c ∧ c ≤ 'Z') ∨ ('0' ≤ c ∧ c ≤ '9') ∨ c = '-')

/-- Model of `pathname.replace(/^\//, '')`: strip exactly one leading slash. -/
def stripLeadSlash : List Char → List Char
  | '/' :: rest => rest
  | s => s

/-- Model of JavaScript `s.split(sep)[0]`: the prefix before the first
occurrence of `sep`. -/
def beforeChar (sep : Char) (s : List Char) : List Char :=
  s.takeWhile (fun c => c ≠ sep)

/-- `extractSlug` from `src/index.js`: strip one leading `/`, cut at the first
`?` and `#`, reject empty / `index.html` / `api/`-prefixed paths, validate
against `/^[a-z0-9-]{3,30}$/i`, and return the lower-cased slug.
`null` is modelled as `none`. -/
def extractSlug (pathname : String) : Option String :=
  let path := beforeChar '#' (beforeChar '?' (stripLeadSlash pathname.data))
  if path = [] then none
  else if path = "index.html".data then none
  else if "api/".data.isPrefixOf path then none
  else if ¬ (path.all isSlugChar ∧ 3 ≤ path.length ∧ path.length ≤ 30) then none
  else some ⟨path.map Char.toLower⟩

/-- Spec-side slug validity: "case-insensitive, characters in `[a-z0-9-]`,
length 3–30 inclusive" (written from the spec's words, for comparison with
the source-derived `extractSlug`). -/
def slugShapeOK (l : List Char) : Bool :=
  l.all isSlugChar && decide (3 ≤ l.length ∧ l.length ≤ 30)

/-- Spec-side extractor, written from the spec's words: strip exactly one
leading `/`, discard everything from the first `?` or `#` onward, produce "no
slug" when the remainder is empty, equals `index.html`, starts with `api/`,
or fails the shape check; otherwise return the remainder lower-cased. -/
def extractSlugSpec (pathname : String) : Option String :=
  let rest := stripLeadSlash pathname.data
  let rest := rest.takeWhile (fun c => c ≠ '?' ∧ c ≠ '#')
  if rest = [] ∨ rest = "index.html".data ∨ "api/".data.isPrefixOf rest ∨ slugShapeOK rest = false
  then none
  else some ⟨rest.map Char.toLower⟩

/-! ## Modelled platform primitive: WHATWG URL

Simplified model of the runtime's `new URL(...)` / `url.toString()` /
`URLSearchParams`.  It covers absolute URLs of the form
`scheme://host[/path][?query][#fragment]`; scheme/host case-normalisation,
percent-decoding of query values and non-authority URLs (e.g. `mailto:`)
are not modelled.  Parse failure (`new URL` throwing) is `none`. -/

structure JsUrl where
  scheme : List Char
  host : List Char
  path : List Char
  query : List (String × String)
  fragment : List Char
  deriving Repr, DecidableEq

/-- Split a character list on a separator (model of `s.split(sep)`). -/
def splitOnChar (sep : Char) (l : List Char) : List (List Char) :=
  l.foldr
    (fun c acc =>
      if c = sep then [] :: acc
      else
        match acc with
        | [] => [[c]]
        | g :: gs => (c :: g) :: gs)
    [[]]

/-- Model of `URLSearchParams` construction from a raw query string: split on
`&`, drop empty pieces, split each piece at the first `=` into key and value
(percent-decoding not modelled). -/
def parseQuery (s : List Char) : List (String × String) :=
  (splitOnChar '&' s).filterMap fun piece =>
    if piece = [] then none
    else some (⟨piece.takeWhile (fun c => c ≠ '=')⟩,
               ⟨(piece.dropWhile (fun c => c ≠ '=')).drop 1⟩)

/-- Host characters stop at `/`, `?`, `#`. -/
def isHostChar (c : Char) : Bool :=
  decide (c ≠ '/' ∧ c ≠ '?' ∧ c ≠ '#')

/-- Path characters stop at `?`, `#`. -/
def isPathChar (c : Char) : Bool :=
  decide (c ≠ '?' ∧ c ≠ '#')

/-- Query/fragment split after the path. -/
def splitAfterPath : List Char → List Char × List Char
  | '?' :: t => (t.takeWhile (fun c => c ≠ '#'), (t.dropWhile (fun c => c ≠ '#')).drop 1)
  | '#' :: t => ([], t)
  | _ => ([], [])

/-- Modelled platform primitive `new URL(s)` (absolute URLs only): a scheme of
ASCII letters, `://`, a non-empty host, then path, query and fragment.  An
empty path serialises/normalises to `/`. -/
def newURL (s : String) : Option JsUrl :=
  let l := s.data
  let scheme := l.takeWhile (fun c => c ≠ ':')
  let rest := l.dropWhile (fun c => c ≠ ':')
  if scheme = [] then none
  else if ¬ scheme.all isAsciiLetter then none
  else if rest.take 3 = [':', '/', '/'] then
    let rest2 := rest.drop 3
    let host := rest2.takeWhile isHostChar
    let rest3 := rest2.dropWhile isHostChar
    if host = [] then none
    else
      let path := rest3.takeWhile isPathChar
      let rest4 := rest3.dropWhile isPathChar
      let qf := splitAfterPath rest4
      some { scheme := scheme
             host := host
             path := if path = [] then ['/'] else path
             query := parseQuery qf.1
             fragment := qf.2 }
  else none

/-- Serialise one query pair as `key=value`. -/
def queryPiece (p : String × String) : List Char :=
  p.1.data ++ '=' :: p.2.data

/-- Serialise a query pair list as `?k1=v1&k2=v2…` (empty for no pairs). -/
def serializeQuery (ps : List (String × String)) : List Char :=
  match ps with
  | [] => []
  | _ => '?' :: List.intercalate ['&'] (ps.map queryPiece)

/-- Serialise a fragment as `#frag` (empty for none). -/
def serializeFragment (f : List Char) : List Char :=
  match f with
  | [] => []
  | _ => '#' :: f

/-- Modelled platform primitive `url.toString()`. -/
def urlToString (u : JsUrl) : String :=
  ⟨u.scheme ++ (':' :: '/' :: '/' ::
    (u.host ++ (u.path ++ (serializeQuery u.query ++ serializeFragment u.fragment))))⟩

/-! ## Search parameter operations -/

/-- First value for a key (model of `URLSearchParams.get`). -/
def getParam (ps : List (String × String)) (k : String) : Option String :=
  (ps.find? (fun p => p.1 = k)).map (fun p => p.2)

/-- Whether a key occurs (model of `URLSearchParams.has`). -/
def hasKey (ps : List (String × String)) (k : String) : Bool :=
  ps.any (fun p => p.1 = k)

/-- Modelled platform primitive `URLSearchParams.set(k, v)`: replace the first
matching pair in place, delete later matches; append when absent. -/
def setParam : List (String × String) → String → String → List (String × String)
  | [], k, v => [(k, v)]
  | p :: rest, k, v =>
    if p.1 = k then (k, v) :: rest.filter (fun q => q.1 ≠ k)
    else p :: setParam rest k v

/-! ## Link records and the URL composer -/

/-- A row of the `links` table as selected by the worker.  Optional / possibly
absent JSON fields are `Option`s; `parameter_pass_through` is modelled by its
truthiness. -/
structure LinkData where
  target_url : Option String
  parameter_pass_through : Bool
  utm_source : Option String
  utm_medium : Option String
  utm_campaign : Option String
  utm_content : Option String
  status : Option Bool
  deriving Repr, DecidableEq

/-- JavaScript truthiness of an optional string field (`undefined`/`null` and
`""` are falsy). -/
def isTruthy : Option String → Bool
  | none => false
  | some s => s ≠ ""

/-- The four reserved UTM keys from `buildTargetUrl`. -/
def utmKeys : List String := ["utm_source", "utm_medium", "utm_campaign", "utm_content"]

/-- The `// Add UTM parameters if configured` block of `buildTargetUrl`:
each truthy UTM field is `set` on the target's search params, in source
order. -/
def applyUtmParams (ps : List (String × String)) (linkData : LinkData) :
    List (String × String) :=
  let ps1 := if isTruthy linkData.utm_source
             then setParam ps "utm_source" (linkData.utm_source.getD "") else ps
  let ps2 := if isTruthy linkData.utm_medium
             then setParam ps1 "utm_medium" (linkData.utm_medium.getD "") else ps1
  let ps3 := if isTruthy linkData.utm_campaign
             then setParam ps2 "utm_campaign" (linkData.utm_campaign.getD "") else ps2
  if isTruthy linkData.utm_content
  then setParam ps3 "utm_content" (linkData.utm_content.getD "") else ps3

/-- The `// Pass through query parameters if enabled` loop of
`buildTargetUrl`: `set` every inbound pair whose key is not a UTM key. -/
def passParams (ps : List (String × String)) (requestParams : List (String × String)) :
    List (String × String) :=
  requestParams.foldl
    (fun acc p => if utmKeys.contains p.1 then acc else setParam acc p.1 p.2)
    ps

/-- The complete search-param transformation of `buildTargetUrl`: configured
UTM parameters first, then (when `parameter_pass_through` is truthy) the
inbound pass-through loop. -/
def composeParams (query : List (String × String)) (linkData : LinkData)
    (requestParams : List (String × String)) : List (String × String) :=
  let q1 := applyUtmParams query linkData
  if linkData.parameter_pass_through then passParams q1 requestParams else q1

/-- `buildTargetUrl` from `src/index.js`.  The `try { new URL(targetUrl) … }`
succeeds iff `newURL` parses; on success the mutated URL is serialised, and on
parse failure the `catch` returns the original `targetUrl` unchanged. -/
def buildTargetUrl (targetUrl : String) (linkData : LinkData) (requestUrl : JsUrl) :
    String :=
  match newURL targetUrl with
  | some target =>
    urlToString { target with query := composeParams target.query linkData requestUrl.query }
  | none => targetUrl

/-! ## The datastore call -/

/-- Outcome of parsing the response body (`await response.json()`):
a throw, a JSON `null`, or an array of rows. -/
inductive BodyParse where
  | parseError
  | jsonNull
  | rows (rs : List LinkData)
  deriving Repr, DecidableEq

/-- Outcome of the single outbound `fetch` to Supabase: a rejected promise
(transport exception) or a response with an HTTP status and a body. -/
inductive StoreOutcome where
  | netError
  | resp (status : Nat) (body : BodyParse)
  deriving Repr, DecidableEq

/-- `response.ok`: status in the range 200–299. -/
def responseOk (status : Nat) : Bool :=
  decide (200 ≤ status ∧ status ≤ 299)

/-- Hex digit (uppercase) for a value below 16. -/
def hexDigit (n : Nat) : Char :=
  if n < 10 then Char.ofNat (48 + n) else Char.ofNat (55 + n)

/-- Characters `encodeURIComponent` leaves unescaped:
`A–Z a–z 0–9 - _ . ! ~ * ' ( )`. -/
def isUriUnreserved (c : Char) : Bool :=
  decide (('A' ≤ c ∧ c ≤ 'Z') ∨ ('a' ≤ c ∧ c ≤ 'z') ∨ ('0' ≤ c ∧ c ≤ '9')
    ∨ c = '-' ∨ c = '_' ∨ c = '.' ∨ c = '!' ∨ c = '~' ∨ c = '*' ∨ c = '\''
    ∨ c = '(' ∨ c = ')')

/-- UTF-8 bytes of a code point. -/
def utf8Bytes (n : Nat) : List Nat :=
  if n < 128 then [n]
  else if n < 2048 then [192 + n / 64, 128 + n % 64]
  else if n < 65536 then [224 + n / 4096, 128 + (n / 64) % 64, 128 + n % 64]
  else [240 + n / 262144, 128 + (n / 4096) % 64, 128 + (n / 64) % 64, 128 + n % 64]

/-- `%HH` escape of one byte. -/
def percentByte (b : Nat) : List Char :=
  ['%', hexDigit (b / 16), hexDigit (b % 16)]

/-- Modelled platform primitive `encodeURIComponent`: unreserved characters
kept, every other character replaced by the `%HH` escapes of its UTF-8
bytes. -/
def encodeURIComponent (s : String) : String :=
  ⟨s.data.flatMap fun c =>
    if isUriUnreserved c then [c] else (utf8Bytes c.toNat).flatMap percentByte⟩

/-- URL string built by `getLinkFromSupabase` (template literal, with
`encodeURIComponent` on slug and domain). -/
def supabaseQueryUrl (slug domain supabaseUrl : String) : String :=
  supabaseUrl ++ "/rest/v1/links?slug=eq." ++ encodeURIComponent slug
    ++ "&domain=eq." ++ encodeURIComponent domain
    ++ "&select=target_url,parameter_pass_through,utm_source,utm_medium,utm_campaign,utm_content,status"

/-- The single outbound HTTP request issued by `getLinkFromSupabase`. -/
structure HttpRequest where
  method : String
  url : String
  headers : List (String × String)
  deriving Repr, DecidableEq

/-- The request `getLinkFromSupabase` sends (method, URL and headers from the
`fetch(url, {...})` call). -/
def supabaseRequest (slug domain supabaseUrl supabaseKey : String) : HttpRequest :=
  { method := "GET"
    url := supabaseQueryUrl slug domain supabaseUrl
    headers := [("apikey", supabaseKey),
                ("Authorization", "Bearer " ++ supabaseKey),
                ("Content-Type", "application/json"),
                ("Prefer", "return=representation")] }

/-- `getLinkFromSupabase` from `src/index.js`, as a function of the datastore
outcome: non-ok status → `null`; body parse throw → `null` (outer `catch`);
JSON `null` or empty array → `null`; first row with `status === false` →
`null`; otherwise the first row. -/
def getLinkFromSupabase (_slug _domain _supabaseUrl _supabaseKey : String)
    (outcome : StoreOutcome) : Option LinkData :=
  match outcome with
  | .netError => none
  | .resp status body =>
    if ¬ responseOk status then none
    else
      match body with
      | .parseError => none
      | .jsonNull => none
      | .rows rs =>
        match rs with
        | [] => none
        | link :: _ => if link.status = some false then none else some link

/-! ## The worker handler -/

/-- Worker environment bindings (absent bindings are `none`; the worker tests
them for truthiness). -/
structure Env where
  SUPABASE_URL : Option String
  SUPABASE_SERVICE_ROLE_KEY : Option String
  deriving Repr, DecidableEq

/-- An HTTP response as produced by the worker. -/
structure JsResponse where
  status : Nat
  body : String
  headers : List (String × String)
  deriving Repr, DecidableEq

/-- The `Link not found` 404 response. -/
def notFoundResponse : JsResponse :=
  { status := 404, body := "Link not found", headers := [("Content-Type", "text/plain")] }

/-- The `Internal server error` 500 response of the outer `catch`. -/
def internalErrorResponse : JsResponse :=
  { status := 500, body := "Internal server error", headers := [("Content-Type", "text/plain")] }

/-- The configuration-error 500 response (`new Response(..., {status: 500})`
with no explicit headers). -/
def configErrorResponse : JsResponse :=
  { status := 500, body := "Service configuration error", headers := [] }

/-- Domain normalisation in `fetch`: `hostname.replace(/^www\./, '')` —
strip one case-sensitive leading `www.`. -/
def normalizeDomain (hostname : String) : String :=
  if "www.".data.isPrefixOf hostname.data then ⟨hostname.data.drop 4⟩ else hostname

/-- Result of one worker invocation: the outbound datastore request, when one
was issued, and the terminal HTTP response. -/
structure WorkerResult where
  sent : Option HttpRequest
  response : JsResponse
  deriving Repr, DecidableEq

/-- The worker's `fetch(request, env)` handler, with the inbound request URL
already parsed (the platform guarantees `request.url` is a valid absolute
URL) and the datastore outcome passed explicitly.  `Response.redirect(url,
301)` is a modelled platform primitive: it throws on an unparseable URL,
which the outer `catch` converts to the 500 response. -/
def workerFetch (requestUrl : JsUrl) (env : Env) (store : StoreOutcome) : WorkerResult :=
  if ¬ (isTruthy env.SUPABASE_URL ∧ isTruthy env.SUPABASE_SERVICE_ROLE_KEY) then
    { sent := none, response := configErrorResponse }
  else
    match extractSlug ⟨requestUrl.path⟩ with
    | none => { sent := none, response := notFoundResponse }
    | some slug =>
      let domain := normalizeDomain ⟨requestUrl.host⟩
      let supabaseUrl := env.SUPABASE_URL.getD ""
      let supabaseKey := env.SUPABASE_SERVICE_ROLE_KEY.getD ""
      let req := supabaseRequest slug domain supabaseUrl supabaseKey
      match getLinkFromSupabase slug domain supabaseUrl supabaseKey store with
      | none => { sent := some req, response := notFoundResponse }
      | some linkData =>
        if ¬ isTruthy linkData.target_url then
          { sent := some req, response := notFoundResponse }
        else
          let finalUrl := buildTargetUrl (linkData.target_url.getD "") linkData requestUrl
          match newURL finalUrl with
          | some _ =>
            { sent := some req
              response := { status := 301, body := "", headers := [("Location", finalUrl)] } }
          | none => { sent := some req, response := internalErrorResponse }

/-! ## Auxiliary definitions used by the statements -/

/-- Last value associated to a key in a pair list (the net effect of setting
every occurrence in order). -/
def lastVal (ps : List (String × String)) (k : String) : Option String :=
  ((ps.filter (fun p => p.1 = k)).getLast?).map (fun p => p.2)

/-- Well-formedness facts that hold of every `newURL` parse result, enough to
guarantee that re-parsing a serialisation succeeds. -/
def UrlWF (u : JsUrl) : Prop :=
  u.scheme ≠ [] ∧ u.scheme.all isAsciiLetter ∧
  u.host ≠ [] ∧ u.host.all isHostChar ∧
  u.path.head? = some '/' ∧ u.path.all isPathChar

/-- The datastore fault classes named by the spec: non-2xx HTTP status, empty
JSON row array, or a transport/parse exception. -/
def datastoreFault : StoreOutcome → Prop
  | .netError => True
  | .resp status body => responseOk status = false ∨ body = .parseError ∨ body = .rows []

/-- Join strings with `&` (spec-side query assembly). -/
def joinAmp : List String → String
  | [] => ""
  | [x] => x
  | x :: xs => x ++ "&" ++ joinAmp xs

/-- Join strings with `,` (spec-side select-list assembly). -/
def joinComma : List String → String
  | [] => ""
  | [x] => x
  | x :: xs => x ++ "," ++ joinComma xs

/-- Spec-side description of the outbound datastore request, assembled from
the spec's words: `GET {BASE_URL}/rest/v1/links` with query parameters
`slug=eq.<slug>`, `domain=eq.<domain>` (values percent-encoded) and the fixed
seven-field select list, and the four listed headers. -/
def specLinksRequest (slug domain baseUrl credential : String) : HttpRequest :=
  { method := "GET"
    url := baseUrl ++ "/rest/v1/links" ++ "?" ++ joinAmp
      ["slug=eq." ++ encodeURIComponent slug,
       "domain=eq." ++ encodeURIComponent domain,
       "select=" ++ joinComma
         ["target_url", "parameter_pass_through", "utm_source", "utm_medium",
          "utm_campaign", "utm_content", "status"]]
    headers := [("apikey", credential),
                ("Authorization", "Bearer " ++ credential),
                ("Content-Type", "application/json"),
                ("Prefer", "return=representation")] }

/-- Spec-side domain normalisation, written from the spec's words: strip a
leading `www.` (case-sensitive exact match, at most once), otherwise return
the hostname unchanged. -/
def specNormalizeDomain (hostname : String) : String :=
  match hostname.data with
  | 'w' :: 'w' :: 'w' :: '.' :: rest => ⟨rest⟩
  | _ => hostname

/-! ## Generic string lemmas -/

theorem str_ext {a b : String} (h : a.data = b.data) : a = b := by
  cases a; cases b; exact congrArg String.mk h

@[simp]
theorem data_append (a b : String) : (a ++ b).data = a.data ++ b.data := rfl

theorem data_mk (l : List Char) : (⟨l⟩ : String).data = l := rfl

theorem str_append_assoc (a b c : String) : (a ++ b) ++ c = a ++ (b ++ c) := by
  apply str_ext
  simp [List.append_assoc]

/-! ## Claim C3: buildTargetUrl is total and falls back to the raw target -/

/-- C3: `buildTargetUrl` is total by construction (it is a Lean function into
`String`); in particular, when the target URL does not parse, it returns the
input string unchanged, signalling no error at the composer boundary. -/
theorem buildTargetUrl_total_fallback_C3 (targetUrl : String) (linkData : LinkData)
    (requestUrl : JsUrl) (h : newURL targetUrl = none) :
    buildTargetUrl targetUrl linkData requestUrl = targetUrl := by
  simp [buildTargetUrl, h]

theorem buildTargetUrl_total_fallback_C3_witness :
    newURL "not-a-url" = none ∧
    buildTargetUrl "not-a-url"
      { target_url := some "not-a-url", parameter_pass_through := true, utm_source := some "nl", utm_medium := none, utm_campaign := none, utm_content := none, status := none }
      { scheme := "https".data, host := "goodlink.ai".data, path := "/abc123".data,
        query := [("ref", "x")], fragment := [] } = "not-a-url" := by
  constructor
  · decide
  · exact buildTargetUrl_total_fallback_C3 _ _ _ (by decide)

/-! ## Claim C9: missing configuration short-circuits to the 500 response -/

/-- C9: when the datastore base URL or credential binding is missing (falsy),
the worker returns the 500 configuration-error response immediately: no slug
extraction, no domain normalisation, and no outbound request (`sent = none`),
for every inbound request and datastore state. -/
theorem workerFetch_missing_config_C9 (requestUrl : JsUrl) (env : Env)
    (store : StoreOutcome)
    (h : env.SUPABASE_URL = none ∨ env.SUPABASE_URL = some "" ∨
         env.SUPABASE_SERVICE_ROLE_KEY = none ∨ env.SUPABASE_SERVICE_ROLE_KEY = some "") :
    workerFetch requestUrl env store = { sent := none, response := configErrorResponse } := by
  have hfalse : ¬ (isTruthy env.SUPABASE_URL ∧ isTruthy env.SUPABASE_SERVICE_ROLE_KEY) := by
    rcases h with h | h | h | h <;> rw [h] <;> simp [isTruthy]
  simp [workerFetch, hfalse]

theorem workerFetch_missing_config_C9_witness :
    workerFetch
      { scheme := "https".data, host := "goodlink.ai".data, path := "/abc123".data,
        query := [], fragment := [] }
      { SUPABASE_URL := none, SUPABASE_SERVICE_ROLE_KEY := some "key" }
      StoreOutcome.netError
      = { sent := none, response := configErrorResponse } :=
  workerFetch_missing_config_C9 _ _ _ (Or.inl rfl)

/-! ## Claim C10: domain normalisation -/

/-- C10: the worker's domain normalisation strips one leading case-sensitive
`www.` and otherwise returns the hostname unchanged (no port stripping, no
case folding): it agrees everywhere with the spec-side description, and the
concrete examples behave as listed. -/
theorem normalizeDomain_spec_C10 :
    (∀ hostname : String, normalizeDomain hostname = specNormalizeDomain hostname) ∧
    normalizeDomain "www.goodlink.ai" = "goodlink.ai" ∧
    normalizeDomain "glynk.io" = "glynk.io" ∧
    normalizeDomain "WWW.goodlink.ai" = "WWW.goodlink.ai" ∧
    normalizeDomain "Www.goodlink.ai" = "Www.goodlink.ai" ∧
    normalizeDomain "www.goodlink.ai:8443" = "goodlink.ai:8443" ∧
    normalizeDomain "glynk.io:8080" = "glynk.io:8080" ∧
    normalizeDomain "www.www.goodlink.ai" = "www.goodlink.ai" ∧
    normalizeDomain "GLYNK.IO" = "GLYNK.IO" := by
  refine ⟨?_, by decide, by decide, by decide, by decide, by decide, by decide, by decide, by decide⟩
  intro hostname
  obtain ⟨d⟩ := hostname
  simp only [normalizeDomain, specNormalizeDomain]
  rcases d with _ | ⟨a, _ | ⟨b, _ | ⟨c, _ | ⟨e, rest⟩⟩⟩⟩
  · simp [List.isPrefixOf]
  · by_cases ha : 'w' = a <;> simp [List.isPrefixOf, ha, Ne.symm]
  · by_cases ha : 'w' = a <;> by_cases hb : 'w' = b <;>
      simp [List.isPrefixOf, ha, hb, Ne.symm]
  · by_cases ha : 'w' = a <;> by_cases hb : 'w' = b <;> by_cases hc : 'w' = c <;>
      simp [List.isPrefixOf, ha, hb, hc, Ne.symm]
  · by_cases ha : 'w' = a <;> by_cases hb : 'w' = b <;> by_cases hc : 'w' = c <;>
      by_cases he : '.' = e <;>
      first
        | (subst ha; subst hb; subst hc; subst he; simp [List.isPrefixOf])
        | simp [List.isPrefixOf, ha, hb, hc, he, Ne.symm]

/-! ## Claim C7: the slug extractor -/

theorem beforeChar_qf (l : List Char) :
    beforeChar '#' (beforeChar '?' l) = l.takeWhile (fun c => c ≠ '?' ∧ c ≠ '#') := by
  unfold beforeChar
  rw [List.takeWhile_takeWhile]
  congr 1
  funext c
  by_cases h1 : c = '?' <;> by_cases h2 : c = '#' <;> simp [h1, h2]

theorem slugShapeOK_iff (l : List Char) :
    slugShapeOK l = true ↔ (l.all isSlugChar ∧ 3 ≤ l.length ∧ l.length ≤ 30) := by
  simp [slugShapeOK]

/-- C7: the source `extractSlug` agrees everywhere with the spec-side
description (strip one leading `/`, discard from the first `?` or `#`, reject
empty / `index.html` / `api/`-prefixed / wrong-shape remainders, lower-case
the rest), and each listed example evaluates as the spec states. -/
theorem extractSlug_spec_C7 :
    (∀ p : String, extractSlug p = extractSlugSpec p) ∧
    extractSlug "/abc123" = some "abc123" ∧
    extractSlug "/AB-12?x=1" = some "ab-12" ∧
    extractSlug "/" = none ∧
    extractSlug "/index.html" = none ∧
    extractSlug "/api/foo" = none ∧
    extractSlug "/ab" = none ∧
    extractSlug ⟨'/' :: List.replicate 31 'a'⟩ = none := by
  refine ⟨?_, by decide, by decide, by decide, by decide, by decide, by decide, by decide⟩
  intro p
  simp only [extractSlug, extractSlugSpec, beforeChar_qf]
  set r : List Char := (stripLeadSlash p.data).takeWhile (fun c => c ≠ '?' ∧ c ≠ '#') with hr
  by_cases h1 : r = []
  · rw [if_pos h1, if_pos (Or.inl h1)]
  · rw [if_neg h1]
    by_cases h2 : r = "index.html".data
    · rw [if_pos h2, if_pos (Or.inr (Or.inl h2))]
    · rw [if_neg h2]
      by_cases h3 : "api/".data.isPrefixOf r = true
      · rw [if_pos h3, if_pos (Or.inr (Or.inr (Or.inl h3)))]
      · rw [if_neg h3]
        by_cases h4 : r.all isSlugChar = true ∧ 3 ≤ r.length ∧ r.length ≤ 30
        · have h5 : slugShapeOK r = true := (slugShapeOK_iff _).2 h4
          rw [if_neg (not_not_intro h4),
            if_neg (fun hor => by
              rcases hor with h | h | h | h
              · exact h1 h
              · exact h2 h
              · exact h3 h
              · rw [h5] at h; exact Bool.noConfusion h)]
        · have h5 : slugShapeOK r = false := by
            cases hb : slugShapeOK r
            · rfl
            · exact absurd ((slugShapeOK_iff _).1 hb) h4
          rw [if_pos h4, if_pos (Or.inr (Or.inr (Or.inr h5)))]

/-! ## Claim C8: the outbound datastore request -/

theorem supabaseQueryUrl_eq (s d b : String) :
    supabaseQueryUrl s d b
      = b ++ "/rest/v1/links" ++ "?" ++ joinAmp
          ["slug=eq." ++ encodeURIComponent s,
           "domain=eq." ++ encodeURIComponent d,
           "select=" ++ joinComma ["target_url", "parameter_pass_through", "utm_source",
             "utm_medium", "utm_campaign", "utm_content", "status"]] := by
  have h1 : ("/rest/v1/links?slug=eq." : String) = "/rest/v1/links" ++ "?" ++ "slug=eq." := by
    decide
  have h2 : ("&domain=eq." : String) = "&" ++ "domain=eq." := by decide
  have h3 :
      ("&select=target_url,parameter_pass_through,utm_source,utm_medium,utm_campaign,utm_content,status" : String)
      = "&" ++ ("select=" ++ ("target_url" ++ ("," ++ ("parameter_pass_through" ++ ("," ++
        ("utm_source" ++ ("," ++ ("utm_medium" ++ ("," ++ ("utm_campaign" ++ ("," ++
        ("utm_content" ++ ("," ++ "status"))))))))))))) := by decide
  simp only [supabaseQueryUrl, joinAmp, joinComma]
  rw [h1, h2, h3]
  simp only [str_append_assoc]

/-- C8: for every slug, domain, base URL and credential, the single outbound
request built by `getLinkFromSupabase` is exactly the spec's described GET:
`{BASE_URL}/rest/v1/links` with `slug=eq.`/`domain=eq.` percent-encoded
values and the fixed seven-field select list, with `apikey` and
`Authorization: Bearer` both carrying the credential, plus the JSON
content-type and `Prefer: return=representation` headers.  The two concrete
evaluations show the modelled `encodeURIComponent` really percent-encodes. -/
theorem supabaseRequest_spec_C8 :
    (∀ slug domain baseUrl credential : String,
      supabaseRequest slug domain baseUrl credential
        = specLinksRequest slug domain baseUrl credential) ∧
    encodeURIComponent "a b&c=d" = "a%20b%26c%3Dd" ∧
    encodeURIComponent "abc-123" = "abc-123" := by
  refine ⟨fun slug domain baseUrl credential => ?_, by decide, by decide⟩
  simp only [supabaseRequest, specLinksRequest, supabaseQueryUrl_eq]

/-! ## Search-parameter lemmas (towards claim C5) -/

theorem getParam_nil (k : String) : getParam [] k = none := rfl

theorem getParam_cons_of_eq (p : String × String) (t : List (String × String)) (k : String)
    (h : p.1 = k) : getParam (p :: t) k = some p.2 := by
  unfold getParam
  rw [List.find?_cons_of_pos]
  · rfl
  · simpa using h

theorem getParam_cons_of_ne (p : String × String) (t : List (String × String)) (k : String)
    (h : ¬ p.1 = k) : getParam (p :: t) k = getParam t k := by
  unfold getParam
  rw [List.find?_cons_of_neg]
  simpa using h

theorem getParam_filter_ne (ps : List (String × String)) (k k' : String) (h : k' ≠ k) :
    getParam (ps.filter (fun q => q.1 ≠ k)) k' = getParam ps k' := by
  induction ps with
  | nil => rfl
  | cons p t ih =>
    by_cases hp : p.1 = k
    · have hne : ¬ p.1 = k' := fun e => h ((e.symm.trans hp))
      rw [List.filter_cons_of_neg (by simpa using hp), ih, getParam_cons_of_ne _ _ _ hne]
    · by_cases hk' : p.1 = k'
      · rw [List.filter_cons_of_pos (by simpa using hp), getParam_cons_of_eq _ _ _ hk',
          getParam_cons_of_eq _ _ _ hk']
      · rw [List.filter_cons_of_pos (by simpa using hp), getParam_cons_of_ne _ _ _ hk',
          getParam_cons_of_ne _ _ _ hk', ih]

theorem getParam_setParam_self (ps : List (String × String)) (k v : String) :
    getParam (setParam ps k v) k = some v := by
  induction ps with
  | nil => rw [setParam, getParam_cons_of_eq _ _ _ rfl]
  | cons p t ih =>
    by_cases hp : p.1 = k
    · rw [setParam, if_pos hp, getParam_cons_of_eq _ _ _ rfl]
    · rw [setParam, if_neg hp, getParam_cons_of_ne _ _ _ hp, ih]

theorem getParam_setParam_ne (ps : List (String × String)) (k v k' : String) (h : k' ≠ k) :
    getParam (setParam ps k v) k' = getParam ps k' := by
  induction ps with
  | nil =>
    rw [setParam, getParam_cons_of_ne _ _ _ (fun e => h (Eq.symm e))]
  | cons p t ih =>
    by_cases hp : p.1 = k
    · have hpk' : ¬ p.1 = k' := fun e => h (e.symm.trans hp)
      rw [setParam, if_pos hp, getParam_cons_of_ne _ _ _ (fun e => h (Eq.symm e)),
        getParam_filter_ne t k k' h, getParam_cons_of_ne _ _ _ hpk']
    · by_cases hk' : p.1 = k'
      · rw [setParam, if_neg hp, getParam_cons_of_eq _ _ _ hk', getParam_cons_of_eq _ _ _ hk']
      · rw [setParam, if_neg hp, getParam_cons_of_ne _ _ _ hk', ih,
          getParam_cons_of_ne _ _ _ hk']

theorem hasKey_cons_ne (p : String × String) (t : List (String × String)) (k : String)
    (h : ¬ p.1 = k) : hasKey (p :: t) k = hasKey t k := by
  simp [hasKey, List.any_cons, h]

theorem hasKey_cons_eq (p : String × String) (t : List (String × String)) (k : String)
    (h : p.1 = k) : hasKey (p :: t) k = true := by
  simp [hasKey, List.any_cons, h]

theorem lastVal_cons_ne (p : String × String) (t : List (String × String)) (k : String)
    (h : ¬ p.1 = k) : lastVal (p :: t) k = lastVal t k := by
  unfold lastVal
  rw [List.filter_cons_of_neg (by simpa using h)]

theorem filter_key_eq_nil_of_not_hasKey (t : List (String × String)) (k : String)
    (h : ¬ hasKey t k = true) : t.filter (fun q => q.1 = k) = [] := by
  rw [List.filter_eq_nil_iff]
  intro a ha hak
  apply h
  simp only [hasKey, List.any_eq_true]
  exact ⟨a, ha, hak⟩

theorem filter_key_ne_nil_of_hasKey (t : List (String × String)) (k : String)
    (h : hasKey t k = true) : t.filter (fun q => q.1 = k) ≠ [] := by
  simp only [hasKey, List.any_eq_true] at h
  obtain ⟨a, ha, hak⟩ := h
  intro hnil
  have : a ∈ t.filter (fun q => q.1 = k) := by
    rw [List.mem_filter]
    exact ⟨ha, hak⟩
  rw [hnil] at this
  exact absurd this (List.not_mem_nil a)

theorem lastVal_cons_eq (p : String × String) (t : List (String × String)) (k : String)
    (h : p.1 = k) :
    lastVal (p :: t) k = if hasKey t k then lastVal t k else some p.2 := by
  unfold lastVal
  rw [List.filter_cons_of_pos (by simpa using h)]
  by_cases ht : hasKey t k = true
  · rw [if_pos ht]
    cases hl : t.filter (fun q => q.1 = k) with
    | nil => exact absurd hl (filter_key_ne_nil_of_hasKey t k ht)
    | cons a l => rw [List.getLast?_cons_cons]
  · rw [if_neg ht, filter_key_eq_nil_of_not_hasKey t k ht]
    rfl

theorem passParams_cons (ps : List (String × String)) (p : String × String)
    (t : List (String × String)) :
    passParams ps (p :: t)
      = passParams (if utmKeys.contains p.1 then ps else setParam ps p.1 p.2) t := rfl

theorem getParam_passParams_utm (rps : List (String × String)) (k : String)
    (hk : utmKeys.contains k = true) :
    ∀ ps, getParam (passParams ps rps) k = getParam ps k := by
  induction rps with
  | nil => intro ps; rfl
  | cons p t ih =>
    intro ps
    rw [passParams_cons]
    by_cases hpu : utmKeys.contains p.1 = true
    · rw [if_pos hpu, ih]
    · rw [if_neg hpu, ih, getParam_setParam_ne _ _ _ _ (fun e => hpu (by rw [← e]; exact hk))]

theorem getParam_passParams_nonutm (rps : List (String × String)) (k : String)
    (hk : utmKeys.contains k = false) :
    ∀ ps, getParam (passParams ps rps) k
      = if hasKey rps k then lastVal rps k else getParam ps k := by
  induction rps with
  | nil => intro ps; simp [passParams, hasKey]
  | cons p t ih =>
    intro ps
    rw [passParams_cons]
    by_cases hpu : utmKeys.contains p.1 = true
    · have hpk : ¬ p.1 = k := by
        intro e
        rw [e, hk] at hpu
        exact Bool.noConfusion hpu
      rw [if_pos hpu, ih ps, hasKey_cons_ne _ _ _ hpk, lastVal_cons_ne _ _ _ hpk]
    · by_cases hpk : p.1 = k
      · rw [if_neg hpu, ih (setParam ps p.1 p.2), hpk, getParam_setParam_self,
          hasKey_cons_eq _ _ _ hpk, if_pos rfl, lastVal_cons_eq _ _ _ hpk]
      · rw [if_neg hpu, ih (setParam ps p.1 p.2),
          getParam_setParam_ne _ _ _ _ (fun e => hpk (Eq.symm e)),
          hasKey_cons_ne _ _ _ hpk, lastVal_cons_ne _ _ _ hpk]

theorem getParam_applyUtm_source (ps : List (String × String)) (l : LinkData) (s : String)
    (hs : l.utm_source = some s) (hne : s ≠ "") :
    getParam (applyUtmParams ps l) "utm_source" = some s := by
  have ht : isTruthy l.utm_source = true := by rw [hs]; simpa [isTruthy] using hne
  have n2 : ∀ qs v, getParam (setParam qs "utm_medium" v) "utm_source"
      = getParam qs "utm_source" := fun qs v => getParam_setParam_ne _ _ _ _ (by decide)
  have n3 : ∀ qs v, getParam (setParam qs "utm_campaign" v) "utm_source"
      = getParam qs "utm_source" := fun qs v => getParam_setParam_ne _ _ _ _ (by decide)
  have n4 : ∀ qs v, getParam (setParam qs "utm_content" v) "utm_source"
      = getParam qs "utm_source" := fun qs v => getParam_setParam_ne _ _ _ _ (by decide)
  simp only [applyUtmParams]
  rw [if_pos ht, hs]
  simp only [Option.getD_some]
  split_ifs <;> simp [n2, n3, n4, getParam_setParam_self]

theorem getParam_applyUtm_medium (ps : List (String × String)) (l : LinkData) (s : String)
    (hs : l.utm_medium = some s) (hne : s ≠ "") :
    getParam (applyUtmParams ps l) "utm_medium" = some s := by
  have ht : isTruthy l.utm_medium = true := by rw [hs]; simpa [isTruthy] using hne
  have n3 : ∀ qs v, getParam (setParam qs "utm_campaign" v) "utm_medium"
      = getParam qs "utm_medium" := fun qs v => getParam_setParam_ne _ _ _ _ (by decide)
  have n4 : ∀ qs v, getParam (setParam qs "utm_content" v) "utm_medium"
      = getParam qs "utm_medium" := fun qs v => getParam_setParam_ne _ _ _ _ (by decide)
  simp only [applyUtmParams]
  rw [if_pos ht, hs]
  simp only [Option.getD_some]
  split_ifs <;> simp [n3, n4, getParam_setParam_self]

theorem getParam_applyUtm_campaign (ps : List (String × String)) (l : LinkData) (s : String)
    (hs : l.utm_campaign = some s) (hne : s ≠ "") :
    getParam (applyUtmParams ps l) "utm_campaign" = some s := by
  have ht : isTruthy l.utm_campaign = true := by rw [hs]; simpa [isTruthy] using hne
  have n4 : ∀ qs v, getParam (setParam qs "utm_content" v) "utm_campaign"
      = getParam qs "utm_campaign" := fun qs v => getParam_setParam_ne _ _ _ _ (by decide)
  simp only [applyUtmParams]
  rw [if_pos ht, hs]
  simp only [Option.getD_some]
  split_ifs <;> simp [n4, getParam_setParam_self]

theorem getParam_applyUtm_content (ps : List (String × String)) (l : LinkData) (s : String)
    (hs : l.utm_content = some s) (hne : s ≠ "") :
    getParam (applyUtmParams ps l) "utm_content" = some s := by
  have ht : isTruthy l.utm_content = true := by rw [hs]; simpa [isTruthy] using hne
  simp only [applyUtmParams]
  rw [if_pos ht, hs]
  simp only [Option.getD_some]
  split_ifs <;> simp [getParam_setParam_self]

/-! ## Claim C5: UTM parameters and query pass-through -/

/-- C5: on a parsed target URL, the composed query of `buildTargetUrl`
satisfies: with `parameter_pass_through` true, every inbound parameter whose
key is not a UTM key is set on the target (its last inbound value wins),
inbound values for the four UTM keys are dropped (the composed value for a
UTM key is whatever the configured-UTM application produced), and each
configured non-empty UTM field ends up as the composed value of its key; with
`parameter_pass_through` false, the composed query is the configured-UTM
application alone, independent of the inbound query. -/
theorem buildTargetUrl_passthrough_C5 (targetUrl : String) (linkData : LinkData)
    (requestUrl : JsUrl) (u : JsUrl) (hp : newURL targetUrl = some u) :
    buildTargetUrl targetUrl linkData requestUrl
      = urlToString { u with query := composeParams u.query linkData requestUrl.query } ∧
    (linkData.parameter_pass_through = true →
      (∀ k, utmKeys.contains k = false → hasKey requestUrl.query k = true →
        getParam (composeParams u.query linkData requestUrl.query) k
          = lastVal requestUrl.query k) ∧
      (∀ k, utmKeys.contains k = true →
        getParam (composeParams u.query linkData requestUrl.query) k
          = getParam (applyUtmParams u.query linkData) k) ∧
      (∀ s, linkData.utm_source = some s → s ≠ "" →
        getParam (composeParams u.query linkData requestUrl.query) "utm_source" = some s) ∧
      (∀ s, linkData.utm_medium = some s → s ≠ "" →
        getParam (composeParams u.query linkData requestUrl.query) "utm_medium" = some s) ∧
      (∀ s, linkData.utm_campaign = some s → s ≠ "" →
        getParam (composeParams u.query linkData requestUrl.query) "utm_campaign" = some s) ∧
      (∀ s, linkData.utm_content = some s → s ≠ "" →
        getParam (composeParams u.query linkData requestUrl.query) "utm_content" = some s)) ∧
    (linkData.parameter_pass_through = false →
      composeParams u.query linkData requestUrl.query
        = applyUtmParams u.query linkData) := by
  refine ⟨?_, fun hpass => ⟨?_, ?_, ?_, ?_, ?_, ?_⟩, fun hpass => ?_⟩
  · simp only [buildTargetUrl, hp]
  · intro k hk hreq
    simp only [composeParams, hpass]
    rw [if_pos trivial, getParam_passParams_nonutm _ _ hk, if_pos hreq]
  · intro k hk
    simp only [composeParams, hpass]
    rw [if_pos trivial, getParam_passParams_utm _ _ hk]
  · intro s hs hne
    simp only [composeParams, hpass]
    rw [if_pos trivial, getParam_passParams_utm _ _ (by decide),
      getParam_applyUtm_source _ _ _ hs hne]
  · intro s hs hne
    simp only [composeParams, hpass]
    rw [if_pos trivial, getParam_passParams_utm _ _ (by decide),
      getParam_applyUtm_medium _ _ _ hs hne]
  · intro s hs hne
    simp only [composeParams, hpass]
    rw [if_pos trivial, getParam_passParams_utm _ _ (by decide),
      getParam_applyUtm_campaign _ _ _ hs hne]
  · intro s hs hne
    simp only [composeParams, hpass]
    rw [if_pos trivial, getParam_passParams_utm _ _ (by decide),
      getParam_applyUtm_content _ _ _ hs hne]
  · simp only [composeParams, hpass]
    rw [if_neg (fun h : false = true => Bool.noConfusion h)]

theorem buildTargetUrl_passthrough_C5_witness :
    getParam
      (composeParams []
        { target_url := some "https://dest.example/page", parameter_pass_through := true, utm_source := some "nl", utm_medium := none, utm_campaign := none, utm_content := none, status := none }
        [("utm_source", "hack"), ("ref", "x")]) "utm_source" = some "nl" ∧
    getParam
      (composeParams []
        { target_url := some "https://dest.example/page", parameter_pass_through := true, utm_source := some "nl", utm_medium := none, utm_campaign := none, utm_content := none, status := none }
        [("utm_source", "hack"), ("ref", "x")]) "ref" = some "x" ∧
    composeParams []
      { target_url := some "https://dest.example/page", parameter_pass_through := false, utm_source := some "nl", utm_medium := none, utm_campaign := none, utm_content := none, status := none }
      [("ref", "x")]
      = applyUtmParams []
          { target_url := some "https://dest.example/page", parameter_pass_through := false, utm_source := some "nl", utm_medium := none, utm_campaign := none, utm_content := none, status := none } := by
  have h := buildTargetUrl_passthrough_C5 "https://dest.example/page"
    { target_url := some "https://dest.example/page", parameter_pass_through := true, utm_source := some "nl", utm_medium := none, utm_campaign := none, utm_content := none, status := none }
    { scheme := "https".data, host := "goodlink.ai".data, path := "/abc123".data,
      query := [("utm_source", "hack"), ("ref", "x")], fragment := [] }
    { scheme := "https".data, host := "dest.example".data, path := "/page".data,
      query := [], fragment := [] }
    (by decide)
  have h2 := buildTargetUrl_passthrough_C5 "https://dest.example/page"
    { target_url := some "https://dest.example/page", parameter_pass_through := false, utm_source := some "nl", utm_medium := none, utm_campaign := none, utm_content := none, status := none }
    { scheme := "https".data, host := "goodlink.ai".data, path := "/abc123".data,
      query := [("ref", "x")], fragment := [] }
    { scheme := "https".data, host := "dest.example".data, path := "/page".data,
      query := [], fragment := [] }
    (by decide)
  refine ⟨(h.2.1 rfl).2.2.1 "nl" rfl (by decide), ?_, h2.2.2 rfl⟩
  have hr := (h.2.1 rfl).1 "ref" (by decide) (by decide)
  exact hr.trans (by decide)

/-! ## URL parser invariants and serialisation round-trip -/

theorem all_takeWhile_self {α : Type} (p : α → Bool) (l : List α) :
    (l.takeWhile p).all p = true := by
  induction l with
  | nil => rfl
  | cons a t ih =>
    rw [List.takeWhile_cons]
    by_cases h : p a = true
    · simp [h, ih]
    · simp [h]

theorem dropWhile_head_not {α : Type} (p : α → Bool) (l : List α) {c : α} {t : List α}
    (h : l.dropWhile p = c :: t) : p c = false := by
  have hd := List.head?_dropWhile_not p l
  rw [h] at hd
  simpa using hd

theorem letter_ne_colon (c : Char) (h : isAsciiLetter c = true) : c ≠ ':' := by
  intro e
  rw [e] at h
  exact absurd h (by decide)

theorem newURL_wf (s : String) (u : JsUrl) (h : newURL s = some u) : UrlWF u := by
  unfold newURL at h
  by_cases h1 : (s.data.takeWhile (fun c => c ≠ ':')) = []
  · rw [if_pos h1] at h; exact absurd h (by simp)
  · rw [if_neg h1] at h
    by_cases h2 : ¬ ((s.data.takeWhile (fun c => c ≠ ':')).all isAsciiLetter = true)
    · rw [if_pos h2] at h; exact absurd h (by simp)
    · rw [if_neg h2] at h
      by_cases h3 : ((s.data.dropWhile (fun c => c ≠ ':')).take 3) = [':', '/', '/']
      · rw [if_pos h3] at h
        by_cases h4 : (((s.data.dropWhile (fun c => c ≠ ':')).drop 3).takeWhile isHostChar) = []
        · rw [if_pos h4] at h; exact absurd h (by simp)
        · rw [if_neg h4] at h
          have hu := Option.some.inj h
          subst hu
          refine ⟨h1, not_not.1 h2, h4, all_takeWhile_self _ _, ?_, ?_⟩
          · -- path head is '/'
            by_cases hp : ((((s.data.dropWhile (fun c => c ≠ ':')).drop 3).dropWhile
                isHostChar).takeWhile isPathChar) = []
            · rw [if_pos hp]; rfl
            · rw [if_neg hp]
              cases hr3 : (((s.data.dropWhile (fun c => c ≠ ':')).drop 3).dropWhile
                  isHostChar) with
              | nil => rw [hr3] at hp; exact absurd rfl hp
              | cons d t3 =>
                have hH : isHostChar d = false := dropWhile_head_not _ _ hr3
                rw [hr3] at hp
                by_cases hP : isPathChar d = true
                · rw [List.takeWhile_cons_of_pos hP]
                  have hd : d = '/' := by
                    simp only [isHostChar, decide_eq_false_iff_not, not_and_or,
                      not_not] at hH
                    simp only [isPathChar, decide_eq_true_eq] at hP
                    rcases hH with h' | h' | h'
                    · exact h'
                    · exact absurd h' hP.1
                    · exact absurd h' hP.2
                  rw [hd]
                  rfl
                · rw [List.takeWhile_cons_of_neg (by simpa using hP)] at hp
                  exact absurd rfl hp
          · -- path chars avoid ? and #
            by_cases hp : ((((s.data.dropWhile (fun c => c ≠ ':')).drop 3).dropWhile
                isHostChar).takeWhile isPathChar) = []
            · rw [if_pos hp]; rfl
            · rw [if_neg hp]
              exact all_takeWhile_self _ _
      · rw [if_neg h3] at h
        exact absurd h (by simp)

theorem takeWhile_append_all {α : Type} (p : α → Bool) (l1 l2 : List α)
    (h : l1.all p = true) : (l1 ++ l2).takeWhile p = l1 ++ l2.takeWhile p := by
  induction l1 with
  | nil => rfl
  | cons a t ih =>
    rw [List.all_cons, Bool.and_eq_true] at h
    rw [List.cons_append, List.takeWhile_cons_of_pos h.1, ih h.2, List.cons_append]

theorem dropWhile_append_all {α : Type} (p : α → Bool) (l1 l2 : List α)
    (h : l1.all p = true) : (l1 ++ l2).dropWhile p = l2.dropWhile p := by
  induction l1 with
  | nil => rfl
  | cons a t ih =>
    rw [List.all_cons, Bool.and_eq_true] at h
    rw [List.cons_append, List.dropWhile_cons_of_pos h.1, ih h.2]

/-- Serialising any well-formed URL (any parse result, with any replaced
query) yields a string that `newURL` parses again: the modelled
`Response.redirect` does not throw on a serialised URL. -/
theorem newURL_urlToString_isSome (u : JsUrl) (h : UrlWF u) :
    (newURL (urlToString u)).isSome = true := by
  obtain ⟨hs1, hs2, hh1, hh2, hp1, hp2⟩ := h
  have hcolon : u.scheme.all (fun c => decide (c ≠ ':')) = true := by
    rw [List.all_eq_true]
    intro c hc
    simpa using letter_ne_colon c (List.all_eq_true.1 hs2 c hc)
  simp only [urlToString, newURL, data_mk]
  rw [takeWhile_append_all _ _ _ hcolon, dropWhile_append_all _ _ _ hcolon,
    List.takeWhile_cons_of_neg (by simp), List.dropWhile_cons_of_neg (by simp),
    List.append_nil]
  have htake3 : (':' :: '/' :: '/' ::
      (u.host ++ (u.path ++ (serializeQuery u.query ++ serializeFragment u.fragment)))).take 3
      = [':', '/', '/'] := rfl
  rw [if_neg hs1, if_neg (not_not_intro hs2), htake3, if_pos rfl]
  have hdrop3 : (':' :: '/' :: '/' ::
      (u.host ++ (u.path ++ (serializeQuery u.query ++ serializeFragment u.fragment)))).drop 3
      = u.host ++ (u.path ++ (serializeQuery u.query ++ serializeFragment u.fragment)) := rfl
  rw [hdrop3, takeWhile_append_all _ _ _ hh2]
  cases hpath : u.path with
  | nil => rw [hpath] at hp1; exact absurd hp1 (by simp)
  | cons pc pt =>
    have hpc : pc = '/' := by
      rw [hpath] at hp1
      simpa using hp1
    rw [hpc, List.cons_append,
      List.takeWhile_cons_of_neg (show ¬ isHostChar '/' = true by decide),
      List.append_nil, if_neg hh1]
    rfl

/-! ## Resolver and pipeline lemmas -/

theorem getLink_fault (slug domain url key : String) (store : StoreOutcome)
    (h : datastoreFault store) :
    getLinkFromSupabase slug domain url key store = none := by
  cases store with
  | netError => rfl
  | resp status body =>
    rcases h with h | h | h
    · simp [getLinkFromSupabase, h]
    · subst h
      cases hok : responseOk status <;> simp [getLinkFromSupabase, hok]
    · subst h
      cases hok : responseOk status <;> simp [getLinkFromSupabase, hok]

theorem getLink_first_row (slug domain url key : String) (st : Nat) (row : LinkData)
    (rest : List LinkData) (hok : responseOk st = true) :
    getLinkFromSupabase slug domain url key (.resp st (.rows (row :: rest)))
      = if row.status = some false then none else some row := by
  simp [getLinkFromSupabase, hok]

theorem workerFetch_noLink (requestUrl : JsUrl) (env : Env) (store : StoreOutcome)
    (slug : String)
    (hu : isTruthy env.SUPABASE_URL = true)
    (hk : isTruthy env.SUPABASE_SERVICE_ROLE_KEY = true)
    (hs : extractSlug ⟨requestUrl.path⟩ = some slug)
    (hnone : ∀ d u' k', getLinkFromSupabase slug d u' k' store = none) :
    (workerFetch requestUrl env store).response = notFoundResponse := by
  unfold workerFetch
  rw [if_neg (not_not_intro ⟨hu, hk⟩), hs]
  simp only [hnone]

theorem workerFetch_row_notruthy (requestUrl : JsUrl) (env : Env) (store : StoreOutcome)
    (slug : String) (row : LinkData)
    (hu : isTruthy env.SUPABASE_URL = true)
    (hk : isTruthy env.SUPABASE_SERVICE_ROLE_KEY = true)
    (hs : extractSlug ⟨requestUrl.path⟩ = some slug)
    (hrow : ∀ d u' k', getLinkFromSupabase slug d u' k' store = some row)
    (ht : isTruthy row.target_url = false) :
    (workerFetch requestUrl env store).response = notFoundResponse := by
  unfold workerFetch
  rw [if_neg (not_not_intro ⟨hu, hk⟩), hs]
  simp only [hrow, ht]
  simp

theorem workerFetch_row_badurl (requestUrl : JsUrl) (env : Env) (store : StoreOutcome)
    (slug : String) (row : LinkData) (s : String)
    (hu : isTruthy env.SUPABASE_URL = true)
    (hk : isTruthy env.SUPABASE_SERVICE_ROLE_KEY = true)
    (hs : extractSlug ⟨requestUrl.path⟩ = some slug)
    (hrow : ∀ d u' k', getLinkFromSupabase slug d u' k' store = some row)
    (hts : row.target_url = some s) (hne : s ≠ "") (hbad : newURL s = none) :
    (workerFetch requestUrl env store).response = internalErrorResponse := by
  have htruthy : isTruthy row.target_url = true := by
    rw [hts]; simpa [isTruthy] using hne
  have hbuild : buildTargetUrl s row requestUrl = s := by
    simp [buildTargetUrl, hbad]
  unfold workerFetch
  rw [if_neg (not_not_intro ⟨hu, hk⟩), hs]
  simp only [hrow, htruthy, hts, Option.getD_some, hbuild, hbad]
  simp [isTruthy, hne]

theorem workerFetch_row_redirect (requestUrl : JsUrl) (env : Env) (store : StoreOutcome)
    (slug : String) (row : LinkData) (s : String) (u : JsUrl)
    (hu : isTruthy env.SUPABASE_URL = true)
    (hk : isTruthy env.SUPABASE_SERVICE_ROLE_KEY = true)
    (hs : extractSlug ⟨requestUrl.path⟩ = some slug)
    (hrow : ∀ d u' k', getLinkFromSupabase slug d u' k' store = some row)
    (hts : row.target_url = some s) (hne : s ≠ "") (hparse : newURL s = some u) :
    (workerFetch requestUrl env store).response
      = { status := 301, body := "",
          headers := [("Location", buildTargetUrl s row requestUrl)] } := by
  have htruthy : isTruthy row.target_url = true := by
    rw [hts]; simpa [isTruthy] using hne
  have hwf := newURL_wf s u hparse
  have hbuild : buildTargetUrl s row requestUrl
      = urlToString { u with query := composeParams u.query row requestUrl.query } := by
    simp [buildTargetUrl, hparse]
  have hsome : (newURL (buildTargetUrl s row requestUrl)).isSome = true := by
    rw [hbuild]
    exact newURL_urlToString_isSome _ hwf
  obtain ⟨v, hv⟩ := Option.isSome_iff_exists.1 hsome
  unfold workerFetch
  rw [if_neg (not_not_intro ⟨hu, hk⟩), hs]
  simp only [hrow, htruthy, hts, Option.getD_some, hv]
  simp [isTruthy, hne]

/-! ## Claim C4: datastore faults degrade to 404 -/

/-- C4: for every datastore outcome in the fault classes (non-2xx status,
empty row array, transport/parse exception), `getLinkFromSupabase` returns
`none` for all slugs/domains/credentials, and the worker's response (config
present, slug valid) is the 404 not-found response — never 500. -/
theorem datastore_fault_404_C4 (requestUrl : JsUrl) (env : Env) (store : StoreOutcome)
    (slug : String)
    (hu : isTruthy env.SUPABASE_URL = true)
    (hk : isTruthy env.SUPABASE_SERVICE_ROLE_KEY = true)
    (hs : extractSlug ⟨requestUrl.path⟩ = some slug)
    (hf : datastoreFault store) :
    (∀ d u' k', getLinkFromSupabase slug d u' k' store = none) ∧
    (workerFetch requestUrl env store).response = notFoundResponse ∧
    (workerFetch requestUrl env store).response.status = 404 ∧
    (workerFetch requestUrl env store).response.status ≠ 500 := by
  have hnone := fun d u' k' => getLink_fault slug d u' k' store hf
  have hresp := workerFetch_noLink requestUrl env store slug hu hk hs hnone
  refine ⟨hnone, hresp, by rw [hresp]; rfl, by rw [hresp]; decide⟩

theorem datastore_fault_404_C4_witness :
    getLinkFromSupabase "abc123" "goodlink.ai" "https://sb.example" "key"
      StoreOutcome.netError = none ∧
    (workerFetch
      { scheme := "https".data, host := "goodlink.ai".data, path := "/abc123".data,
        query := [], fragment := [] }
      { SUPABASE_URL := some "https://sb.example", SUPABASE_SERVICE_ROLE_KEY := some "key" }
      StoreOutcome.netError).response.status = 404 := by
  have h := datastore_fault_404_C4
    { scheme := "https".data, host := "goodlink.ai".data, path := "/abc123".data,
      query := [], fragment := [] }
    { SUPABASE_URL := some "https://sb.example", SUPABASE_SERVICE_ROLE_KEY := some "key" }
    StoreOutcome.netError "abc123" (by decide) (by decide) (by decide) trivial
  exact ⟨h.1 "goodlink.ai" "https://sb.example" "key", h.2.2.1⟩

/-! ## Claim C6: the status field gate -/

/-- C6: for a resolved first row (config present, slug valid, 2xx response):
when `status` is present and `false` the response is the 404 not-found
response regardless of the row's `target_url`; when `status` is absent the
row is treated as active and, given a valid non-empty `target_url`, the
worker proceeds to the 301 redirect with the composed `Location`. -/
theorem status_gate_C6 (requestUrl : JsUrl) (env : Env) (st : Nat) (row : LinkData)
    (rest : List LinkData) (slug : String)
    (hu : isTruthy env.SUPABASE_URL = true)
    (hk : isTruthy env.SUPABASE_SERVICE_ROLE_KEY = true)
    (hs : extractSlug ⟨requestUrl.path⟩ = some slug)
    (hok : responseOk st = true) :
    (row.status = some false →
      (workerFetch requestUrl env (.resp st (.rows (row :: rest)))).response
        = notFoundResponse ∧
      (workerFetch requestUrl env (.resp st (.rows (row :: rest)))).response.status = 404) ∧
    (row.status = none → ∀ s u, row.target_url = some s → s ≠ "" → newURL s = some u →
      (workerFetch requestUrl env (.resp st (.rows (row :: rest)))).response.status = 301 ∧
      (workerFetch requestUrl env (.resp st (.rows (row :: rest)))).response.headers
        = [("Location", buildTargetUrl s row requestUrl)]) := by
  constructor
  · intro hstat
    have hnone : ∀ d u' k',
        getLinkFromSupabase slug d u' k' (.resp st (.rows (row :: rest))) = none :=
      fun d u' k' => by
        rw [getLink_first_row slug d u' k' st row rest hok, if_pos hstat]
    have hresp := workerFetch_noLink requestUrl env _ slug hu hk hs hnone
    exact ⟨hresp, by rw [hresp]; rfl⟩
  · intro hstat s u hts hne hparse
    have hsome : ∀ d u' k',
        getLinkFromSupabase slug d u' k' (.resp st (.rows (row :: rest))) = some row :=
      fun d u' k' => by
        rw [getLink_first_row slug d u' k' st row rest hok, if_neg (by simp [hstat])]
    have hresp := workerFetch_row_redirect requestUrl env _ slug row s u
      hu hk hs hsome hts hne hparse
    exact ⟨by rw [hresp], by rw [hresp]⟩

theorem status_gate_C6_witness :
    (workerFetch
      { scheme := "https".data, host := "goodlink.ai".data, path := "/abc123".data,
        query := [], fragment := [] }
      { SUPABASE_URL := some "https://sb.example", SUPABASE_SERVICE_ROLE_KEY := some "key" }
      (.resp 200 (.rows [{ target_url := some "https://x.com", parameter_pass_through := false, utm_source := none, utm_medium := none, utm_campaign := none, utm_content := none, status := some false }]))).response.status
      = 404 ∧
    (workerFetch
      { scheme := "https".data, host := "goodlink.ai".data, path := "/abc123".data,
        query := [], fragment := [] }
      { SUPABASE_URL := some "https://sb.example", SUPABASE_SERVICE_ROLE_KEY := some "key" }
      (.resp 200 (.rows [{ target_url := some "https://x.com", parameter_pass_through := false, utm_source := none, utm_medium := none, utm_campaign := none, utm_content := none, status := none }]))).response.status
      = 301 := by
  constructor
  · exact (((status_gate_C6
      { scheme := "https".data, host := "goodlink.ai".data, path := "/abc123".data,
        query := [], fragment := [] }
      { SUPABASE_URL := some "https://sb.example", SUPABASE_SERVICE_ROLE_KEY := some "key" }
      200
      { target_url := some "https://x.com", parameter_pass_through := false, utm_source := none, utm_medium := none, utm_campaign := none, utm_content := none, status := some false }
      [] "abc123" (by decide) (by decide) (by decide) (by decide)).1 rfl).2)
  · exact ((status_gate_C6
      { scheme := "https".data, host := "goodlink.ai".data, path := "/abc123".data,
        query := [], fragment := [] }
      { SUPABASE_URL := some "https://sb.example", SUPABASE_SERVICE_ROLE_KEY := some "key" }
      200
      { target_url := some "https://x.com", parameter_pass_through := false, utm_source := none, utm_medium := none, utm_campaign := none, utm_content := none, status := none }
      [] "abc123" (by decide) (by decide) (by decide) (by decide)).2 rfl
      "https://x.com"
      { scheme := "https".data, host := "x.com".data, path := "/".data,
        query := [], fragment := [] }
      rfl (by decide) (by decide)).1

/-! ## Claim C1: composer failure vs 404 -/

/-- C1 counterexample: a record resolves whose `target_url` is absent, yet
the response is 404, not 500 — the claim's "the request yields a 500 response
in these cases, never a 404" is false for the absence case. -/
theorem target_url_errors_C1_counterexample :
    getLinkFromSupabase "abc123" "goodlink.ai" "https://sb.example" "key"
      (.resp 200 (.rows [{ target_url := none, parameter_pass_through := false, utm_source := none, utm_medium := none, utm_campaign := none, utm_content := none, status := some true }]))
      = some { target_url := none, parameter_pass_through := false, utm_source := none, utm_medium := none, utm_campaign := none, utm_content := none, status := some true } ∧
    (workerFetch
      { scheme := "https".data, host := "goodlink.ai".data, path := "/abc123".data,
        query := [], fragment := [] }
      { SUPABASE_URL := some "https://sb.example", SUPABASE_SERVICE_ROLE_KEY := some "key" }
      (.resp 200 (.rows [{ target_url := none, parameter_pass_through := false, utm_source := none, utm_medium := none, utm_campaign := none, utm_content := none, status := some true }]))).response.status = 404 := by
  decide

/-- C1 (amended): for a resolved active first row, an absent or empty
`target_url` yields the 404 not-found response (not 500), while a non-empty
`target_url` that fails to parse as an absolute URL yields the 500 response
(from the redirect step's throw), never a 404. -/
theorem target_url_errors_C1 (requestUrl : JsUrl) (env : Env) (st : Nat) (row : LinkData)
    (rest : List LinkData) (slug : String)
    (hu : isTruthy env.SUPABASE_URL = true)
    (hk : isTruthy env.SUPABASE_SERVICE_ROLE_KEY = true)
    (hs : extractSlug ⟨requestUrl.path⟩ = some slug)
    (hok : responseOk st = true)
    (hstat : ¬ row.status = some false) :
    (isTruthy row.target_url = false →
      (workerFetch requestUrl env (.resp st (.rows (row :: rest)))).response
        = notFoundResponse) ∧
    (∀ s, row.target_url = some s → s ≠ "" → newURL s = none →
      (workerFetch requestUrl env (.resp st (.rows (row :: rest)))).response
        = internalErrorResponse ∧
      (workerFetch requestUrl env (.resp st (.rows (row :: rest)))).response.status = 500 ∧
      (workerFetch requestUrl env (.resp st (.rows (row :: rest)))).response.status ≠ 404) := by
  have hsome : ∀ d u' k',
      getLinkFromSupabase slug d u' k' (.resp st (.rows (row :: rest))) = some row :=
    fun d u' k' => by
      rw [getLink_first_row slug d u' k' st row rest hok, if_neg hstat]
  constructor
  · intro ht
    exact workerFetch_row_notruthy requestUrl env _ slug row hu hk hs hsome ht
  · intro s hts hne hbad
    have hresp := workerFetch_row_badurl requestUrl env _ slug row s hu hk hs hsome hts hne hbad
    exact ⟨hresp, by rw [hresp]; rfl, by rw [hresp]; decide⟩

theorem target_url_errors_C1_witness :
    (workerFetch
      { scheme := "https".data, host := "goodlink.ai".data, path := "/abc123".data,
        query := [], fragment := [] }
      { SUPABASE_URL := some "https://sb.example", SUPABASE_SERVICE_ROLE_KEY := some "key" }
      (.resp 200 (.rows [{ target_url := none, parameter_pass_through := false, utm_source := none, utm_medium := none, utm_campaign := none, utm_content := none, status := none }]))).response = notFoundResponse ∧
    (workerFetch
      { scheme := "https".data, host := "goodlink.ai".data, path := "/abc123".data,
        query := [], fragment := [] }
      { SUPABASE_URL := some "https://sb.example", SUPABASE_SERVICE_ROLE_KEY := some "key" }
      (.resp 200 (.rows [{ target_url := some "not-a-url", parameter_pass_through := false, utm_source := none, utm_medium := none, utm_campaign := none, utm_content := none, status := none }]))).response.status = 500 := by
  constructor
  · exact (target_url_errors_C1
      { scheme := "https".data, host := "goodlink.ai".data, path := "/abc123".data,
        query := [], fragment := [] }
      { SUPABASE_URL := some "https://sb.example", SUPABASE_SERVICE_ROLE_KEY := some "key" }
      200
      { target_url := none, parameter_pass_through := false, utm_source := none, utm_medium := none, utm_campaign := none, utm_content := none, status := none }
      [] "abc123" (by decide) (by decide) (by decide) (by decide) (by decide)).1 rfl
  · exact ((target_url_errors_C1
      { scheme := "https".data, host := "goodlink.ai".data, path := "/abc123".data,
        query := [], fragment := [] }
      { SUPABASE_URL := some "https://sb.example", SUPABASE_SERVICE_ROLE_KEY := some "key" }
      200
      { target_url := some "not-a-url", parameter_pass_through := false, utm_source := none, utm_medium := none, utm_campaign := none, utm_content := none, status := none }
      [] "abc123" (by decide) (by decide) (by decide) (by decide) (by decide)).2
      "not-a-url" rfl (by decide) (by decide)).2.1

/-! ## Claim C2: malformed target URL and the terminal response -/

/-- C2 counterexample: a record resolves that is active and whose
`target_url` (the empty string) is not a valid absolute URL, yet the terminal
response is 404, not 500 — refuting the claim as stated. -/
theorem malformed_target_500_C2_counterexample :
    newURL "" = none ∧
    getLinkFromSupabase "abc123" "goodlink.ai" "https://sb.example" "key"
      (.resp 200 (.rows [{ target_url := some "", parameter_pass_through := false, utm_source := none, utm_medium := none, utm_campaign := none, utm_content := none, status := some true }]))
      = some { target_url := some "", parameter_pass_through := false, utm_source := none, utm_medium := none, utm_campaign := none, utm_content := none, status := some true } ∧
    (workerFetch
      { scheme := "https".data, host := "goodlink.ai".data, path := "/abc123".data,
        query := [], fragment := [] }
      { SUPABASE_URL := some "https://sb.example", SUPABASE_SERVICE_ROLE_KEY := some "key" }
      (.resp 200 (.rows [{ target_url := some "", parameter_pass_through := false, utm_source := none, utm_medium := none, utm_campaign := none, utm_content := none, status := some true }]))).response.status = 404 := by
  decide

/-- C2 (amended): for a resolved active first row whose `target_url` is a
non-empty string that fails to parse as an absolute URL, the terminal
response is the plain-text 500 internal error — never a redirect and never a
404.  (An absent or empty `target_url` instead yields 404.) -/
theorem malformed_target_500_C2 (requestUrl : JsUrl) (env : Env) (st : Nat) (row : LinkData)
    (rest : List LinkData) (slug : String) (s : String)
    (hu : isTruthy env.SUPABASE_URL = true)
    (hk : isTruthy env.SUPABASE_SERVICE_ROLE_KEY = true)
    (hs : extractSlug ⟨requestUrl.path⟩ = some slug)
    (hok : responseOk st = true)
    (hstat : ¬ row.status = some false)
    (hts : row.target_url = some s) (hne : s ≠ "") (hbad : newURL s = none) :
    (workerFetch requestUrl env (.resp st (.rows (row :: rest)))).response
      = internalErrorResponse ∧
    (workerFetch requestUrl env (.resp st (.rows (row :: rest)))).response.status = 500 ∧
    (workerFetch requestUrl env (.resp st (.rows (row :: rest)))).response.body
      = "Internal server error" ∧
    (workerFetch requestUrl env (.resp st (.rows (row :: rest)))).response.headers
      = [("Content-Type", "text/plain")] ∧
    (workerFetch requestUrl env (.resp st (.rows (row :: rest)))).response.status ≠ 404 ∧
    (workerFetch requestUrl env (.resp st (.rows (row :: rest)))).response.status ≠ 301 := by
  have hsome : ∀ d u' k',
      getLinkFromSupabase slug d u' k' (.resp st (.rows (row :: rest))) = some row :=
    fun d u' k' => by
      rw [getLink_first_row slug d u' k' st row rest hok, if_neg hstat]
  have hresp := workerFetch_row_badurl requestUrl env _ slug row s hu hk hs hsome hts hne hbad
  refine ⟨hresp, by rw [hresp]; rfl, by rw [hresp]; rfl, by rw [hresp]; rfl, by rw [hresp]; decide,
    by rw [hresp]; decide⟩

theorem malformed_target_500_C2_witness :
    (workerFetch
      { scheme := "https".data, host := "goodlink.ai".data, path := "/abc123".data,
        query := [], fragment := [] }
      { SUPABASE_URL := some "https://sb.example", SUPABASE_SERVICE_ROLE_KEY := some "key" }
      (.resp 200 (.rows [{ target_url := some "/relative/path", parameter_pass_through := false, utm_source := none, utm_medium := none, utm_campaign := none, utm_content := none, status := some true }]))).response
      = internalErrorResponse :=
  (malformed_target_500_C2
    { scheme := "https".data, host := "goodlink.ai".data, path := "/abc123".data,
      query := [], fragment := [] }
    { SUPABASE_URL := some "https://sb.example", SUPABASE_SERVICE_ROLE_KEY := some "key" }
    200
    { target_url := some "/relative/path", parameter_pass_through := false, utm_source := none, utm_medium := none, utm_campaign := none, utm_content := none, status := some true }
    [] "abc123" "/relative/path" (by decide) (by decide) (by decide) (by decide)
    (by decide) rfl (by decide) (by decide)).1

end Goodlink
